import Mathlib

/-!
Verification of the MizitoForwarder credential lifecycle and delivery core.

Shallow embedding of:
  * the JWT token store (`jwt` package: `LoadToken`, `SaveToken`, `GetToken`,
    `HasValidToken`, `ClearToken`),
  * the auth service (`mizito/auth.go`: `EnsureValidToken`, `RefreshToken`),
  * the delivery pipeline (`mizito/message.go`: `SendMessage`,
    `sendMessageWithRetry`).

External effects (HTTP calls, file-system outcomes, clock) are passed in as
explicit environment parameters, and each operation additionally reports the
sequence of I/O events it performed, so that statements about "no further
network calls" and "exactly one refresh" are statements about the returned
event trace.  Timestamps are modelled as `Int` (seconds); the 24-hour validity
window of `SaveToken` becomes the constant `tokenValidityWindow`.
-/

/-- The persisted token record (`jwt.TokenData`): token string, last-login
identifier and the two timestamps written by `SaveToken`. -/
structure TokenData where
  token : String
  lastLoginUID : String
  expiresAt : Int
  updatedAt : Int
  deriving Repr, DecidableEq

/-- Content of the token file when it exists: either unparsable bytes or a
well-formed serialized record (`json.MarshalIndent` of a `TokenData` followed
by `json.Unmarshal` round-trips the record, so a well-formed file is modelled
by the record it denotes). -/
inductive FileData where
  | corrupt
  | record (td : TokenData)
  deriving Repr, DecidableEq

/-- The credential store state: the in-memory record (`m.tokenData`, `none`
when nil) and the on-disk token file (`none` when the file does not exist). -/
structure StoreState where
  mem : Option TokenData
  file : Option FileData
  deriving Repr, DecidableEq

/-- The fixed validity window `24 * time.Hour` of `SaveToken`, in seconds. -/
def tokenValidityWindow : Int := 24 * 60 * 60

/-- `jwt.Manager.LoadToken`: a missing file returns nil without touching the
in-memory record; an unparsable file returns an error, also without touching
the in-memory record (the assignment to `m.tokenData` happens only after a
successful parse); a well-formed file replaces the in-memory record. -/
def LoadToken (s : StoreState) : StoreState × Option Unit :=
  match s.file with
  | none => (s, none)
  | some FileData.corrupt => (s, some ())
  | some (FileData.record td) => ({ s with mem := some td }, none)

/-- `jwt.Manager.SaveToken` (success path): builds the record with
`ExpiresAt = now + 24h` and `UpdatedAt = now`, writes it to the file and
installs it in memory.  Failures of `MkdirAll`/`WriteFile` return before the
in-memory assignment and are not modelled here; the file-operation trace of
the write itself is modelled separately by `saveTokenFsOps`. -/
def SaveToken (token lastLoginUID : String) (now : Int) (s : StoreState) : StoreState :=
  let td : TokenData :=
    { token := token
      lastLoginUID := lastLoginUID
      expiresAt := now + tokenValidityWindow
      updatedAt := now }
  { s with mem := some td, file := some (FileData.record td) }

/-- `jwt.Manager.GetToken`: returns the in-memory token without I/O; a nil
record or an empty token yields `("", false)`. -/
def GetToken (s : StoreState) : String × Bool :=
  match s.mem with
  | none => ("", false)
  | some td => if td.token == "" then ("", false) else (td.token, true)

/-- `jwt.Manager.HasValidToken`: true only when a record with a non-empty
token is present and the current time is strictly before `ExpiresAt`. -/
def HasValidToken (s : StoreState) (now : Int) : Bool :=
  match s.mem with
  | none => false
  | some td => td.token != "" && decide (now < td.expiresAt)

/-- Outcome of `os.Remove` on the token file, as seen by `ClearToken`. -/
inductive RemoveOutcome where
  | ok
  | notExist
  | failed
  deriving Repr, DecidableEq

/-- `jwt.Manager.ClearToken`: when `os.Remove` fails with an error other than
not-exist, the function returns the error before `m.tokenData = nil`, so the
whole state is unchanged; on success or when the file was already absent the
in-memory record is dropped and nil is returned. -/
def ClearToken (out : RemoveOutcome) (s : StoreState) : StoreState × Option Unit :=
  match out with
  | RemoveOutcome.failed => (s, some ())
  | RemoveOutcome.ok => ({ mem := none, file := none }, none)
  | RemoveOutcome.notExist => ({ mem := none, file := s.file }, none)

/-- The spec's credential invariant: the record is absent, or has a non-empty
token and an expiry strictly later than its update timestamp. -/
def credInvariant (c : Option TokenData) : Bool :=
  match c with
  | none => true
  | some td => td.token != "" && decide (td.updatedAt < td.expiresAt)

/-- The corresponding invariant on the token file: if it holds a well-formed
record, that record satisfies `credInvariant`. -/
def fileInvariant (f : Option FileData) : Bool :=
  match f with
  | some (FileData.record td) => credInvariant (some td)
  | _ => true

/-- A store with no record in memory and no token file. -/
def emptyStore : StoreState := { mem := none, file := none }

/-! File-operation trace of `SaveToken`, for the atomic-write claim. -/

/-- A file-system operation performed by the store. -/
inductive FsOp where
  | mkdirAll (dir : String)
  | writeFileOp (path : String) (content : String)
  | renameOp (src dst : String)
  deriving Repr, DecidableEq

/-- The file-system operations `SaveToken` performs, in order: `os.MkdirAll`
on the parent directory when it is not ".", then a single `ioutil.WriteFile`
directly to the configured token-file path. -/
def saveTokenFsOps (dir path content : String) : List FsOp :=
  (if dir == "." then [] else [FsOp.mkdirAll dir]) ++ [FsOp.writeFileOp path content]

/-- Modelled from the spec: the write-temp-then-rename discipline ("writes
record atomically enough that a concurrent reader never observes a partially
written file (write-temp-then-rename or equivalent)").  The repository has no
implementation of such a discipline, so the predicate follows the spec's
words: the final path is never the target of a direct write; its content may
only appear via a rename of a fully written temporary file. -/
def atomicWriteDiscipline (ops : List FsOp) (finalPath : String) : Bool :=
  (ops.any fun op =>
    match op with
    | FsOp.renameOp _ dst => dst == finalPath
    | _ => false) &&
  (ops.all fun op =>
    match op with
    | FsOp.writeFileOp p _ => p != finalPath
    | _ => true)

/-- True when the operation is a rename. -/
def FsOp.isRename (op : FsOp) : Bool :=
  match op with
  | FsOp.renameOp _ _ => true
  | _ => false

/-! Auth service (`mizito/auth.go`).  The login HTTP exchange is abstracted
as an environment value: either an error (transport failure, non-200 status,
unparsable body, or body status different from 1) or the `(token,
last_login_uid)` pair of a successful response. -/

/-- An I/O event of the auth service: reading the token file, or the login
network call. -/
inductive AuthEvent where
  | loadFileEv
  | loginEv
  deriving Repr, DecidableEq

/-- `AuthService.Login` against a fixed upstream outcome: on success the
token is persisted through `SaveToken`; on failure the store is unchanged.
Always performs the login network call. -/
def Login (now : Int) (loginEnv : Except Unit (String × String)) (s : StoreState) :
    StoreState × Option Unit :=
  match loginEnv with
  | Except.error _ => (s, some ())
  | Except.ok tu => (SaveToken tu.1 tu.2 now s, none)

/-- `AuthService.EnsureValidToken`: if the store already holds a valid token,
return immediately with no I/O; otherwise try `LoadToken` (its error is only
logged), re-check, and fall back to `Login`.  The third component is the
sequence of I/O events performed. -/
def EnsureValidToken (now : Int) (loginEnv : Except Unit (String × String))
    (s : StoreState) : StoreState × Option Unit × List AuthEvent :=
  if HasValidToken s now then (s, none, [])
  else
    let s1 := (LoadToken s).1
    if HasValidToken s1 now then (s1, none, [AuthEvent.loadFileEv])
    else
      let r := Login now loginEnv s1
      (r.1, r.2, [AuthEvent.loadFileEv, AuthEvent.loginEv])

/-- `AuthService.RefreshToken`: unconditionally clear the stored credential
(a clear failure is only logged), then log in again. -/
def RefreshToken (now : Int) (loginEnv : Except Unit (String × String))
    (out : RemoveOutcome) (s : StoreState) : StoreState × Option Unit :=
  Login now loginEnv (ClearToken out s).1

/-! Delivery pipeline (`mizito/message.go`). -/

/-- Shape of an HTTP-200 send-response body as seen by the two-step parse of
`sendMessageWithRetry`: a JSON boolean (parsed by the first `json.Unmarshal`
into `BoolResponse`), a JSON object (parsed by the second `json.Unmarshal`
into `MessageResponse`, whose `status` field defaults to 0 when absent), or a
body parsable as neither. -/
inductive Body where
  | jsonBool (b : Bool)
  | jsonObj (status : Int) (msg : String)
  | malformed
  deriving Repr, DecidableEq

/-- What the upstream send endpoint does on a given attempt: the transport
call fails (`client.Do` error), reading the response body fails, or a
response with an HTTP status and a body arrives. -/
inductive AttemptEnv where
  | transportFail
  | readFail
  | resp (status : Nat) (body : Body)
  deriving Repr, DecidableEq

/-- What the auth service does when the retry loop refreshes before an
attempt: `RefreshToken` fails, `RefreshToken` succeeds but the subsequent
`GetToken` fails, or a new token is issued. -/
inductive RefreshEnv where
  | refreshFail
  | getTokenFail
  | refreshed (newToken : String)
  deriving Repr, DecidableEq

/-- A network event of the retry loop: one refresh (clear + login) call, or
one send request carrying the token currently set in the `x-token` header. -/
inductive SendEvent where
  | refreshEv
  | sendEv (token : String)
  deriving Repr, BEq, DecidableEq

/-- The failure recorded in `lastErr` by an attempt that `continue`s. -/
inductive LastErr where
  | refreshFailed
  | getTokenFailed
  | transportFailed
  | readFailed
  deriving Repr, DecidableEq

/-- Result of `sendMessageWithRetry`, one constructor per distinct return of
the Go function. -/
inductive SendResult where
  /-- A confirmed success (`return nil`). -/
  | success
  /-- "message send failed with unauthorized status after N retries": 401 on
  the last attempt. -/
  | unauthorizedExhausted
  /-- "message send failed with status: S": HTTP status other than 200/401. -/
  | httpError (status : Nat)
  /-- "message send failed: received false response": body was boolean
  `false`. -/
  | falseResponse
  /-- "message send failed with status: S, message: M": object body with
  status different from 1. -/
  | statusNot1 (status : Int) (msg : String)
  /-- "message send failed: unexpected response format": body parsed as
  neither shape. -/
  | unexpectedFormat
  /-- "message send failed after N attempts, last error: E": the loop ran
  out of attempts, every attempt having `continue`d. -/
  | exhausted (lastErr : Option LastErr)
  /-- `SendMessage` failed to obtain the initial token. -/
  | noInitialToken
  deriving Repr, DecidableEq

/-- One pass of the `for attempt := 0; attempt <= maxRetries; attempt++`
loop of `sendMessageWithRetry`, recursing on the number of loop iterations
that remain (`fuel`, kept equal to `maxRetries + 1 - attempt`).  `tok` is the
token currently set in the request header, `lastErr` the last recorded
failure.  Returns the Go function's result together with the trace of
network events performed from this iteration on. -/
def sendRetryIter (aEnv : Nat → AttemptEnv) (rEnv : Nat → RefreshEnv)
    (maxRetries : Nat) :
    Nat → Nat → String → Option LastErr → SendResult × List SendEvent
  | 0, _, _, lastErr => (SendResult.exhausted lastErr, [])
  | fuel + 1, attempt, tok, lastErr =>
    let afterRefresh : Sum LastErr String :=
      if attempt == 0 then Sum.inr tok
      else
        match rEnv attempt with
        | RefreshEnv.refreshFail => Sum.inl LastErr.refreshFailed
        | RefreshEnv.getTokenFail => Sum.inl LastErr.getTokenFailed
        | RefreshEnv.refreshed t => Sum.inr t
    let pre : List SendEvent :=
      if attempt == 0 then [] else [SendEvent.refreshEv]
    match afterRefresh with
    | Sum.inl e =>
      let r := sendRetryIter aEnv rEnv maxRetries fuel (attempt + 1) tok (some e)
      (r.1, pre ++ r.2)
    | Sum.inr t =>
      match aEnv attempt with
      | AttemptEnv.transportFail =>
        let r := sendRetryIter aEnv rEnv maxRetries fuel (attempt + 1) t
          (some LastErr.transportFailed)
        (r.1, pre ++ SendEvent.sendEv t :: r.2)
      | AttemptEnv.readFail =>
        let r := sendRetryIter aEnv rEnv maxRetries fuel (attempt + 1) t
          (some LastErr.readFailed)
        (r.1, pre ++ SendEvent.sendEv t :: r.2)
      | AttemptEnv.resp status body =>
        if status == 401 then
          if attempt < maxRetries then
            let r := sendRetryIter aEnv rEnv maxRetries fuel (attempt + 1) t lastErr
            (r.1, pre ++ SendEvent.sendEv t :: r.2)
          else (SendResult.unauthorizedExhausted, pre ++ [SendEvent.sendEv t])
        else if status == 200 then
          match body with
          | Body.jsonBool true => (SendResult.success, pre ++ [SendEvent.sendEv t])
          | Body.jsonBool false => (SendResult.falseResponse, pre ++ [SendEvent.sendEv t])
          | Body.jsonObj st msg =>
            if st == 1 then (SendResult.success, pre ++ [SendEvent.sendEv t])
            else (SendResult.statusNot1 st msg, pre ++ [SendEvent.sendEv t])
          | Body.malformed => (SendResult.unexpectedFormat, pre ++ [SendEvent.sendEv t])
        else (SendResult.httpError status, pre ++ [SendEvent.sendEv t])

/-- `sendMessageWithRetry(req, maxRetries)`: run the loop from attempt 0 with
the initial header token and no recorded error. -/
def sendMessageWithRetry (aEnv : Nat → AttemptEnv) (rEnv : Nat → RefreshEnv)
    (maxRetries : Nat) (tok0 : String) : SendResult × List SendEvent :=
  sendRetryIter aEnv rEnv maxRetries (maxRetries + 1) 0 tok0 none

/-- `MessageService.SendMessage`: obtain the initial token via
`auth.GetToken` (abstracted as `initialToken`; its own I/O precedes the retry
loop and is not part of the returned trace), build the request, and call
`sendMessageWithRetry` with `maxRetries = 2`. -/
def SendMessage (initialToken : Except Unit String) (aEnv : Nat → AttemptEnv)
    (rEnv : Nat → RefreshEnv) : SendResult × List SendEvent :=
  match initialToken with
  | Except.error _ => (SendResult.noInitialToken, [])
  | Except.ok tok0 => sendMessageWithRetry aEnv rEnv 2 tok0

/-! Claim theorems. -/

/-- C1: if the send endpoint answers HTTP 401 on all three attempts (the
initial attempt plus the 2 extra retries of `maxRetries = 2`), `SendMessage`
returns the terminal "unauthorized after retries" error, and the network
trace is exactly send, refresh, send, refresh, send: no refresh or login
follows the last 401. -/
theorem C1_deliver_exhausts_after_three_401s (aEnv : Nat → AttemptEnv)
    (rEnv : Nat → RefreshEnv) (tok0 t1 t2 : String) (b0 b1 b2 : Body)
    (h0 : aEnv 0 = AttemptEnv.resp 401 b0) (h1 : aEnv 1 = AttemptEnv.resp 401 b1)
    (h2 : aEnv 2 = AttemptEnv.resp 401 b2)
    (hr1 : rEnv 1 = RefreshEnv.refreshed t1) (hr2 : rEnv 2 = RefreshEnv.refreshed t2) :
    SendMessage (Except.ok tok0) aEnv rEnv =
      (SendResult.unauthorizedExhausted,
       [SendEvent.sendEv tok0, SendEvent.refreshEv, SendEvent.sendEv t1,
        SendEvent.refreshEv, SendEvent.sendEv t2]) := by
  simp [SendMessage, sendMessageWithRetry, sendRetryIter, h0, h1, h2, hr1, hr2]

/-- Witness for C1 at a concrete environment: every attempt answers 401 and
every refresh issues a fresh token. -/
theorem C1_deliver_exhausts_after_three_401s_witness :
    SendMessage (Except.ok "t0")
      (fun _ => AttemptEnv.resp 401 Body.malformed)
      (fun n => if n == 1 then RefreshEnv.refreshed "t1" else RefreshEnv.refreshed "t2") =
      (SendResult.unauthorizedExhausted,
       [SendEvent.sendEv "t0", SendEvent.refreshEv, SendEvent.sendEv "t1",
        SendEvent.refreshEv, SendEvent.sendEv "t2"]) :=
  C1_deliver_exhausts_after_three_401s _ _ "t0" "t1" "t2"
    Body.malformed Body.malformed Body.malformed rfl rfl rfl rfl rfl

/-- C2: 401 on attempts 1 and 2, then 200 with body `true` on attempt 3:
each 401 with remaining budget is followed by exactly one refresh before the
next send, the retried send carries the token that refresh issued, the
delivery returns no error, and exactly two refresh calls occur in total. -/
theorem C2_refresh_once_per_401_with_budget (aEnv : Nat → AttemptEnv)
    (rEnv : Nat → RefreshEnv) (tok0 t1 t2 : String) (b0 b1 : Body)
    (h0 : aEnv 0 = AttemptEnv.resp 401 b0) (h1 : aEnv 1 = AttemptEnv.resp 401 b1)
    (h2 : aEnv 2 = AttemptEnv.resp 200 (Body.jsonBool true))
    (hr1 : rEnv 1 = RefreshEnv.refreshed t1) (hr2 : rEnv 2 = RefreshEnv.refreshed t2) :
    SendMessage (Except.ok tok0) aEnv rEnv =
      (SendResult.success,
       [SendEvent.sendEv tok0, SendEvent.refreshEv, SendEvent.sendEv t1,
        SendEvent.refreshEv, SendEvent.sendEv t2]) ∧
    (SendMessage (Except.ok tok0) aEnv rEnv).2.count SendEvent.refreshEv = 2 := by
  have hmain : SendMessage (Except.ok tok0) aEnv rEnv =
      (SendResult.success,
       [SendEvent.sendEv tok0, SendEvent.refreshEv, SendEvent.sendEv t1,
        SendEvent.refreshEv, SendEvent.sendEv t2]) := by
    simp [SendMessage, sendMessageWithRetry, sendRetryIter, h0, h1, h2, hr1, hr2]
  exact ⟨hmain, by rw [hmain]; rfl⟩

/-- Witness for C2 at a concrete environment: 401 twice, then a bare-boolean
success body. -/
theorem C2_refresh_once_per_401_with_budget_witness :
    SendMessage (Except.ok "t0")
      (fun n => if n < 2 then AttemptEnv.resp 401 Body.malformed
                else AttemptEnv.resp 200 (Body.jsonBool true))
      (fun n => if n == 1 then RefreshEnv.refreshed "t1" else RefreshEnv.refreshed "t2") =
      (SendResult.success,
       [SendEvent.sendEv "t0", SendEvent.refreshEv, SendEvent.sendEv "t1",
        SendEvent.refreshEv, SendEvent.sendEv "t2"]) ∧
    (SendMessage (Except.ok "t0")
      (fun n => if n < 2 then AttemptEnv.resp 401 Body.malformed
                else AttemptEnv.resp 200 (Body.jsonBool true))
      (fun n => if n == 1 then RefreshEnv.refreshed "t1" else RefreshEnv.refreshed "t2")).2.count
        SendEvent.refreshEv = 2 :=
  C2_refresh_once_per_401_with_budget _ _ "t0" "t1" "t2"
    Body.malformed Body.malformed rfl rfl rfl rfl rfl

/-- C3 counterexample: a delivery whose first send fails at the transport
level is retried through the auth-recovery loop rather than surfaced
immediately — with a transport failure on attempt 1 and a successful 200
response on attempt 2, `SendMessage` returns success after a refresh and a
second send, so the transport error was neither terminal nor unretried. -/
theorem C3_counterexample_transport_error_is_retried :
    SendMessage (Except.ok "t0")
      (fun n => if n == 0 then AttemptEnv.transportFail
                else AttemptEnv.resp 200 (Body.jsonBool true))
      (fun _ => RefreshEnv.refreshed "t1") =
      (SendResult.success,
       [SendEvent.sendEv "t0", SendEvent.refreshEv, SendEvent.sendEv "t1"]) := by
  rfl

/-- C3 amended: a transport-level failure of the send request is recorded in
`lastErr` and retried through the same bounded refresh-and-retry loop as a
401; it is surfaced (wrapped in the "failed after N attempts" error) only
when the attempt budget is exhausted, as when every attempt fails at the
transport level. -/
theorem C3_amended_transport_errors_retried_until_exhaustion
    (aEnv : Nat → AttemptEnv) (rEnv : Nat → RefreshEnv) (tok0 t1 t2 : String)
    (h0 : aEnv 0 = AttemptEnv.transportFail) (h1 : aEnv 1 = AttemptEnv.transportFail)
    (h2 : aEnv 2 = AttemptEnv.transportFail)
    (hr1 : rEnv 1 = RefreshEnv.refreshed t1) (hr2 : rEnv 2 = RefreshEnv.refreshed t2) :
    SendMessage (Except.ok tok0) aEnv rEnv =
      (SendResult.exhausted (some LastErr.transportFailed),
       [SendEvent.sendEv tok0, SendEvent.refreshEv, SendEvent.sendEv t1,
        SendEvent.refreshEv, SendEvent.sendEv t2]) := by
  simp [SendMessage, sendMessageWithRetry, sendRetryIter, h0, h1, h2, hr1, hr2]

/-- Witness for the amended C3 at a concrete environment where every send
attempt fails at the transport level. -/
theorem C3_amended_transport_errors_retried_until_exhaustion_witness :
    SendMessage (Except.ok "t0")
      (fun _ => AttemptEnv.transportFail)
      (fun n => if n == 1 then RefreshEnv.refreshed "t1" else RefreshEnv.refreshed "t2") =
      (SendResult.exhausted (some LastErr.transportFailed),
       [SendEvent.sendEv "t0", SendEvent.refreshEv, SendEvent.sendEv "t1",
        SendEvent.refreshEv, SendEvent.sendEv "t2"]) :=
  C3_amended_transport_errors_retried_until_exhaustion _ _ "t0" "t1" "t2"
    rfl rfl rfl rfl rfl

/-- C4: decoding of an HTTP-200 send response body.  A bare boolean `true`
and an object with status 1 both yield success; an object with status
different from 1 is a terminal non-auth failure; a body parsable as neither
shape is a terminal format error.  In each case the trace is a single send —
no refresh is triggered and no retry budget is consumed. -/
theorem C4_response_body_decoding (aEnv : Nat → AttemptEnv)
    (rEnv : Nat → RefreshEnv) (tok0 : String) (st : Int) (msg : String)
    (hst : st ≠ 1) :
    (aEnv 0 = AttemptEnv.resp 200 (Body.jsonBool true) →
      SendMessage (Except.ok tok0) aEnv rEnv =
        (SendResult.success, [SendEvent.sendEv tok0])) ∧
    (aEnv 0 = AttemptEnv.resp 200 (Body.jsonObj 1 msg) →
      SendMessage (Except.ok tok0) aEnv rEnv =
        (SendResult.success, [SendEvent.sendEv tok0])) ∧
    (aEnv 0 = AttemptEnv.resp 200 (Body.jsonObj st msg) →
      SendMessage (Except.ok tok0) aEnv rEnv =
        (SendResult.statusNot1 st msg, [SendEvent.sendEv tok0])) ∧
    (aEnv 0 = AttemptEnv.resp 200 Body.malformed →
      SendMessage (Except.ok tok0) aEnv rEnv =
        (SendResult.unexpectedFormat, [SendEvent.sendEv tok0])) := by
  refine ⟨fun h0 => ?_, fun h0 => ?_, fun h0 => ?_, fun h0 => ?_⟩ <;>
    simp [SendMessage, sendMessageWithRetry, sendRetryIter, h0, hst]

/-- Witness for C4: all four body shapes at concrete environments. -/
theorem C4_response_body_decoding_witness :
    SendMessage (Except.ok "t0") (fun _ => AttemptEnv.resp 200 (Body.jsonBool true))
      (fun _ => RefreshEnv.refreshed "r") = (SendResult.success, [SendEvent.sendEv "t0"]) ∧
    SendMessage (Except.ok "t0") (fun _ => AttemptEnv.resp 200 (Body.jsonObj 1 "x"))
      (fun _ => RefreshEnv.refreshed "r") = (SendResult.success, [SendEvent.sendEv "t0"]) ∧
    SendMessage (Except.ok "t0") (fun _ => AttemptEnv.resp 200 (Body.jsonObj 0 "x"))
      (fun _ => RefreshEnv.refreshed "r") =
        (SendResult.statusNot1 0 "x", [SendEvent.sendEv "t0"]) ∧
    SendMessage (Except.ok "t0") (fun _ => AttemptEnv.resp 200 Body.malformed)
      (fun _ => RefreshEnv.refreshed "r") =
        (SendResult.unexpectedFormat, [SendEvent.sendEv "t0"]) :=
  ⟨(C4_response_body_decoding _ _ "t0" 0 "x" (by decide)).1 rfl,
   (C4_response_body_decoding _ _ "t0" 0 "x" (by decide)).2.1 rfl,
   (C4_response_body_decoding _ _ "t0" 0 "x" (by decide)).2.2.1 rfl,
   (C4_response_body_decoding _ _ "t0" 0 "x" (by decide)).2.2.2 rfl⟩

/-- C5 counterexample: the file operations `SaveToken` performs for a token
file at `data/token.json` fail the write-temp-then-rename discipline — the
sequence contains a direct write of the final path and no rename at all, so
a concurrent reader may observe a partially written file. -/
theorem C5_counterexample_save_is_not_atomic :
    atomicWriteDiscipline (saveTokenFsOps "data" "data/token.json" "rec")
      "data/token.json" = false ∧
    FsOp.writeFileOp "data/token.json" "rec" ∈
      saveTokenFsOps "data" "data/token.json" "rec" := by
  decide

/-- C5 amended: for every directory, path and content, `SaveToken` writes the
record with a single direct `WriteFile` of the final token-file path, and its
operation sequence contains no rename — there is no write-temp-then-rename
step, so the write is not atomic with respect to concurrent readers. -/
theorem C5_amended_save_writes_final_path_directly (dir path content : String) :
    FsOp.writeFileOp path content ∈ saveTokenFsOps dir path content ∧
    (saveTokenFsOps dir path content).all (fun op => ! op.isRename) = true := by
  constructor
  · simp [saveTokenFsOps]
  · by_cases h : dir == "." <;> simp [saveTokenFsOps, h, FsOp.isRename]

/-- C6 counterexample: starting from the empty store (which satisfies the
credential invariant), `SaveToken` called with an empty token — which the
code never guards against; the login path passes the response's `token`
field through unchecked — installs a present record whose token is empty,
so the invariant is not preserved by every store operation. -/
theorem C6_counterexample_save_empty_token :
    credInvariant emptyStore.mem = true ∧
    credInvariant (SaveToken "" "u" 0 emptyStore).mem = false := by
  decide

/-- C6 amended: `SaveToken` always writes a record whose expiry is exactly
the 24-hour window after its update timestamp, so it establishes the
invariant whenever its token argument is non-empty; `LoadToken` preserves
the invariant whenever the token file's record satisfies it; `ClearToken`
preserves it unconditionally (`GetToken` and `HasValidToken` are read-only
and do not change the record).  Without those provisos the invariant can be
broken: by `SaveToken` with an empty token, or by `LoadToken` of a
well-formed file holding a violating record. -/
theorem C6_amended_invariant_preservation :
    (∀ tok uid now (s : StoreState), (SaveToken tok uid now s).mem =
      some { token := tok, lastLoginUID := uid,
             expiresAt := now + tokenValidityWindow, updatedAt := now }) ∧
    (∀ tok uid now (s : StoreState), tok ≠ "" →
      credInvariant (SaveToken tok uid now s).mem = true) ∧
    (∀ s : StoreState, credInvariant s.mem = true → fileInvariant s.file = true →
      credInvariant (LoadToken s).1.mem = true) ∧
    (∀ out (s : StoreState), credInvariant s.mem = true →
      credInvariant (ClearToken out s).1.mem = true) := by
  refine ⟨fun tok uid now s => rfl, fun tok uid now s h => ?_, fun s h hf => ?_,
    fun out s h => ?_⟩
  · simp [SaveToken, credInvariant, tokenValidityWindow, h]
  · match hfile : s.file with
    | none => simpa [LoadToken, hfile] using h
    | some FileData.corrupt => simpa [LoadToken, hfile] using h
    | some (FileData.record td) =>
      simp [LoadToken, hfile]
      simpa [fileInvariant, hfile] using hf
  · cases out
    · simp [ClearToken, credInvariant]
    · simp [ClearToken, credInvariant]
    · simpa [ClearToken] using h

/-- Witness for the amended C6 at concrete inputs: a save of a non-empty
token, a load from a store whose file holds an invariant-satisfying record,
and a failed clear on that store. -/
theorem C6_amended_invariant_preservation_witness :
    credInvariant (SaveToken "tk" "u" 0 emptyStore).mem = true ∧
    credInvariant
      (LoadToken { mem := none, file := some (FileData.record
        { token := "tk", lastLoginUID := "u", expiresAt := 5, updatedAt := 0 }) }).1.mem = true ∧
    credInvariant
      (ClearToken RemoveOutcome.failed
        { mem := some { token := "tk", lastLoginUID := "u", expiresAt := 5, updatedAt := 0 },
          file := none }).1.mem = true :=
  ⟨C6_amended_invariant_preservation.2.1 "tk" "u" 0 emptyStore (by decide),
   C6_amended_invariant_preservation.2.2.1 _ (by decide) (by decide),
   C6_amended_invariant_preservation.2.2.2 RemoveOutcome.failed _ (by decide)⟩

/-- C7: for every token and identity written by `SaveToken`, loading the
resulting file in a fresh process (empty in-memory store holding the written
file) succeeds and yields an in-memory record equal to the one that was
written — in particular the in-memory token equals the written token. -/
theorem C7_save_load_roundtrip (tok uid : String) (now : Int) (s : StoreState) :
    (LoadToken { mem := none, file := (SaveToken tok uid now s).file }).2 = none ∧
    (LoadToken { mem := none, file := (SaveToken tok uid now s).file }).1.mem =
      some { token := tok, lastLoginUID := uid,
             expiresAt := now + tokenValidityWindow, updatedAt := now } ∧
    ((LoadToken { mem := none, file := (SaveToken tok uid now s).file }).1.mem.map
      TokenData.token) = some tok := by
  simp [LoadToken, SaveToken]

/-- C8: when the store already holds a valid (non-expired, non-empty)
credential, `EnsureValidToken` returns no error, performs no file or network
I/O (empty event trace), and leaves the store unchanged. -/
theorem C8_ensure_valid_is_pure_on_valid_token (now : Int)
    (loginEnv : Except Unit (String × String)) (s : StoreState)
    (h : HasValidToken s now = true) :
    EnsureValidToken now loginEnv s = (s, none, []) := by
  simp [EnsureValidToken, h]

/-- Witness for C8: a store holding a token valid at time 5. -/
theorem C8_ensure_valid_is_pure_on_valid_token_witness :
    HasValidToken
      { mem := some { token := "tk", lastLoginUID := "u", expiresAt := 10, updatedAt := 0 },
        file := none } 5 = true ∧
    EnsureValidToken 5 (Except.error ())
      { mem := some { token := "tk", lastLoginUID := "u", expiresAt := 10, updatedAt := 0 },
        file := none } =
      ({ mem := some { token := "tk", lastLoginUID := "u", expiresAt := 10, updatedAt := 0 },
         file := none }, none, []) :=
  ⟨by decide, C8_ensure_valid_is_pure_on_valid_token 5 (Except.error ()) _ (by decide)⟩

/-- C9: `LoadToken` on a missing file returns nil and leaves the whole state
unchanged; on an unparsable file it returns an error, leaves the whole state
unchanged, and in particular a previously held in-memory token is still
returned by `GetToken` afterwards. -/
theorem C9_load_error_atomicity (s : StoreState) :
    (s.file = none → LoadToken s = (s, none)) ∧
    (s.file = some FileData.corrupt →
      (LoadToken s).1 = s ∧ (LoadToken s).2 = some () ∧
      GetToken (LoadToken s).1 = GetToken s) := by
  refine ⟨fun h => ?_, fun h => ?_⟩ <;> simp [LoadToken, h]

/-- Witness for C9: the empty store (missing file) and a store holding a
token in memory over a corrupt file. -/
theorem C9_load_error_atomicity_witness :
    LoadToken emptyStore = (emptyStore, none) ∧
    (LoadToken { mem := some { token := "tk", lastLoginUID := "u", expiresAt := 10, updatedAt := 0 },
                 file := some FileData.corrupt }).1 =
      { mem := some { token := "tk", lastLoginUID := "u", expiresAt := 10, updatedAt := 0 },
        file := some FileData.corrupt } :=
  ⟨(C9_load_error_atomicity emptyStore).1 rfl,
   ((C9_load_error_atomicity _).2 rfl).1⟩

/-- C10: when the deletion of the token file fails for a reason other than
the file not existing, `ClearToken` returns an error and the state is
unchanged — `GetToken` and `HasValidToken` behave exactly as before — while
on successful deletion or an already-absent file the in-memory record is
dropped and nil is returned. -/
theorem C10_clear_error_preserves_state (s : StoreState) :
    ClearToken RemoveOutcome.failed s = (s, some ()) ∧
    GetToken (ClearToken RemoveOutcome.failed s).1 = GetToken s ∧
    (∀ now : Int, HasValidToken (ClearToken RemoveOutcome.failed s).1 now =
      HasValidToken s now) ∧
    (ClearToken RemoveOutcome.ok s).1.mem = none ∧
    (ClearToken RemoveOutcome.ok s).2 = none ∧
    (ClearToken RemoveOutcome.notExist s).1.mem = none ∧
    (ClearToken RemoveOutcome.notExist s).2 = none := by
  simp [ClearToken]
